import Mathlib

/-!
# Verification of the health-app derived-metric core

Shallow embedding of the derived-metric logic of the `health-app`
repository (an iOS health tracker plus a Cloudflare Worker backend):

* rolling weight average with confidence
  (`src/ios-app/HealthTracker/Utils/WeightAverageCalculator.swift`,
   `src/mcp-server/src/db/queries.ts` / `calculateRollingAverage`);
* phase suggestion scoring
  (`src/mcp-server/src/utils/calculations.ts` / `suggestPhase`,
   `src/ios-app/HealthTracker/Utils/PhaseDetector.swift`);
* week persistence and the tool-surface report builders
  (`src/mcp-server/src/db/queries.ts`, `src/mcp-server/src/tools/*.ts`,
   `src/mcp-server/src/api/routes.ts`, `src/mcp-server/src/index.ts`,
   `src/mcp-server/src/auth.ts`).

Modelling conventions:
* Dates are embedded as integers (day numbers).  Both implementations
  operate at calendar-day granularity: the Swift calculator compares
  `Date` values after a whole-day offset, and the backend stores ISO
  `YYYY-MM-DD` strings, whose lexicographic order coincides with
  chronological order, so an order-embedding into `Int` is faithful.
* IEEE doubles are embedded as `Rat`.  Every constant appearing in the
  code (`0.5`, `1.0`, `-300`, …) is exactly representable, and the
  phase scores are sums of at most four such constants, so the scoring
  arithmetic is exact; weight sums/means are modelled exactly as field
  operations.
* JavaScript truthiness on nullable numbers (`x || d`, `x ? a : b`) is
  modelled on `Option Rat`: `none` and `some 0` are falsy.
-/

namespace HealthApp

/-- A weight reading
(`WeightReading` in `queries.ts` / `WeightReading.swift`).
Metadata fields (`id`, `source`, `created_at`) play no role in any
computation modelled here and are omitted. -/
structure WeightReading where
  date : Int
  weight : Rat
  body_fat_percentage : Option Rat := none
  muscle_mass_percentage : Option Rat := none
deriving Repr, DecidableEq

/-- Result of a rolling average calculation
(`AverageResult` in `WeightAverageCalculator.swift`; the TypeScript
`calculateRollingAverage` returns the same record with `average: null`
standing for an invalid result). -/
structure AverageResult where
  average : Option Rat
  confidence : Rat
  readingCount : Nat
  isValid : Bool
deriving Repr, DecidableEq

/-- Membership of a reading date in the trailing window
`[targetDate - windowDays + 1, targetDate]`
(`reading.date >= windowStart && reading.date <= targetDate` in
`WeightAverageCalculator.swift`, with
`windowStart = targetDate - windowDays + 1` days). -/
def inWindow (targetDate windowDays : Int) (d : Int) : Bool :=
  decide (targetDate - windowDays + 1 ≤ d) && decide (d ≤ targetDate)

/-- `WeightAverageCalculator.calculate7DayAverage` /
`calculateRollingAverage` in `queries.ts`: filter readings to the
trailing window, require at least 3, return mean weight and the
confidence `count / windowDays`. -/
def calculate7DayAverage (readings : List WeightReading)
    (targetDate : Int) (windowDays : Int) : AverageResult :=
  let relevantReadings := readings.filter fun r => inWindow targetDate windowDays r.date
  if relevantReadings.length < 3 then
    { average := none
      confidence := 0
      readingCount := relevantReadings.length
      isValid := false }
  else
    let sum := relevantReadings.foldl (fun acc r => acc + r.weight) 0
    let average := sum / (relevantReadings.length : Rat)
    let confidence := (relevantReadings.length : Rat) / (windowDays : Rat)
    { average := some average
      confidence := confidence
      readingCount := relevantReadings.length
      isValid := true }

lemma foldl_weight_eq_sum (l : List WeightReading) (init : Rat) :
    l.foldl (fun acc r => acc + r.weight) init = init + (l.map (·.weight)).sum := by
  induction l generalizing init with
  | nil => simp
  | cons x xs ih =>
      simp [List.foldl_cons, ih, add_assoc]

lemma calculate7DayAverage_of_lt (readings : List WeightReading)
    (targetDate windowDays : Int)
    (h : (readings.filter fun r => inWindow targetDate windowDays r.date).length < 3) :
    calculate7DayAverage readings targetDate windowDays =
      { average := none
        confidence := 0
        readingCount := (readings.filter fun r => inWindow targetDate windowDays r.date).length
        isValid := false } := by
  simp only [calculate7DayAverage]
  rw [if_pos h]

lemma calculate7DayAverage_of_ge (readings : List WeightReading)
    (targetDate windowDays : Int)
    (h : ¬ (readings.filter fun r => inWindow targetDate windowDays r.date).length < 3) :
    calculate7DayAverage readings targetDate windowDays =
      { average := some
          ((((readings.filter fun r => inWindow targetDate windowDays r.date).map
              (·.weight)).sum) /
            ((readings.filter fun r => inWindow targetDate windowDays r.date).length : Rat))
        confidence :=
          ((readings.filter fun r => inWindow targetDate windowDays r.date).length : Rat) /
            (windowDays : Rat)
        readingCount := (readings.filter fun r => inWindow targetDate windowDays r.date).length
        isValid := true } := by
  simp only [calculate7DayAverage]
  rw [if_neg h, foldl_weight_eq_sum]
  simp

/-- **C1.** For every set of weight readings and every target date and
window length `windowDays ≥ 1`, if at least 3 readings have a date in
the inclusive interval `[targetDate - windowDays + 1, targetDate]`,
the rolling-average operation returns `average` equal to the
arithmetic mean of exactly those in-window readings' weights, and
`isValid` is `true`. -/
theorem rollingAverage_valid_mean (readings : List WeightReading)
    (targetDate windowDays : Int) (hw : 1 ≤ windowDays)
    (h3 : 3 ≤ (readings.filter fun r => inWindow targetDate windowDays r.date).length) :
    (calculate7DayAverage readings targetDate windowDays).average =
      some ((((readings.filter fun r => inWindow targetDate windowDays r.date).map
                (·.weight)).sum) /
            ((readings.filter fun r => inWindow targetDate windowDays r.date).length : Rat)) ∧
    (calculate7DayAverage readings targetDate windowDays).isValid = true := by
  have hnot : ¬ (readings.filter fun r => inWindow targetDate windowDays r.date).length < 3 := by
    omega
  rw [calculate7DayAverage_of_ge readings targetDate windowDays hnot]
  exact ⟨rfl, rfl⟩

/-- Witness for `rollingAverage_valid_mean`: three readings on
consecutive days (the spec's scenario `[182.0, 181.5, 181.0]`, window
7) give average `181.5` and a valid result. -/
theorem rollingAverage_valid_mean_witness :
    (calculate7DayAverage
        [⟨5, 182, none, none⟩, ⟨6, (363:Rat)/2, none, none⟩, ⟨7, 181, none, none⟩]
        7 7).average = some ((363:Rat)/2) ∧
    (calculate7DayAverage
        [⟨5, 182, none, none⟩, ⟨6, (363:Rat)/2, none, none⟩, ⟨7, 181, none, none⟩]
        7 7).isValid = true := by
  have h := rollingAverage_valid_mean
    [⟨5, 182, none, none⟩, ⟨6, (363:Rat)/2, none, none⟩, ⟨7, 181, none, none⟩]
    7 7 (by decide) (by decide)
  refine ⟨?_, h.2⟩
  rw [h.1]
  norm_num [inWindow, List.filter]

/-- **C2.** For every set of weight readings, every target date, and
every window length, if fewer than 3 readings fall inside the trailing
window then the rolling-average operation returns `isValid = false`,
`average` undefined (`none`, not zero and not an error), `confidence = 0`,
and `readingCount` equal to the number of in-window readings. -/
theorem rollingAverage_invalid_below_three (readings : List WeightReading)
    (targetDate windowDays : Int)
    (h : (readings.filter fun r => inWindow targetDate windowDays r.date).length < 3) :
    (calculate7DayAverage readings targetDate windowDays).isValid = false ∧
    (calculate7DayAverage readings targetDate windowDays).average = none ∧
    (calculate7DayAverage readings targetDate windowDays).confidence = 0 ∧
    (calculate7DayAverage readings targetDate windowDays).readingCount =
      (readings.filter fun r => inWindow targetDate windowDays r.date).length := by
  rw [calculate7DayAverage_of_lt readings targetDate windowDays h]
  exact ⟨rfl, rfl, rfl, rfl⟩

/-- Witness for `rollingAverage_invalid_below_three`: two readings in a
7-day window give an invalid result with `average = none`,
`confidence = 0`, `readingCount = 2`. -/
theorem rollingAverage_invalid_below_three_witness :
    (calculate7DayAverage [⟨6, 180, none, none⟩, ⟨7, 181, none, none⟩] 7 7).isValid = false ∧
    (calculate7DayAverage [⟨6, 180, none, none⟩, ⟨7, 181, none, none⟩] 7 7).average = none ∧
    (calculate7DayAverage [⟨6, 180, none, none⟩, ⟨7, 181, none, none⟩] 7 7).confidence = 0 ∧
    (calculate7DayAverage [⟨6, 180, none, none⟩, ⟨7, 181, none, none⟩] 7 7).readingCount = 2 := by
  have h := rollingAverage_invalid_below_three
    [⟨6, 180, none, none⟩, ⟨7, 181, none, none⟩] 7 7 (by decide)
  exact ⟨h.1, h.2.1, h.2.2.1, by rw [h.2.2.2]; decide⟩

/-- Eight readings inside a 7-day window (two on day 1): the code does
not require at most one reading per day, so `readingCount` can exceed
`windowDays`. -/
def eightReadings : List WeightReading :=
  [⟨1, 180, none, none⟩, ⟨1, 181, none, none⟩, ⟨2, 180, none, none⟩,
   ⟨3, 180, none, none⟩, ⟨4, 180, none, none⟩, ⟨5, 180, none, none⟩,
   ⟨6, 180, none, none⟩, ⟨7, 180, none, none⟩]

/-- **C3, counterexample.** The claim asserts that for every input the
confidence lies in `[0, 1]`.  With eight readings inside a 7-day
window (duplicate dates are not rejected anywhere), the returned
confidence is `8/7 > 1`. -/
theorem rollingAverage_confidence_can_exceed_one :
    ¬ ((calculate7DayAverage eightReadings 7 7).confidence ≤ 1) := by
  have h : (calculate7DayAverage eightReadings 7 7).confidence = 8 / 7 := by
    rw [calculate7DayAverage_of_ge eightReadings 7 7 (by decide)]
    norm_num [eightReadings, inWindow, List.filter]
  rw [h]
  norm_num

/-- **C3, amended.**  For every valid rolling-average result the
confidence equals exactly `readingCount / windowDays` (not rounded),
and the confidence is always nonnegative; it is at most 1 whenever the
number of in-window readings does not exceed `windowDays` (in
particular under the at-most-one-reading-per-day assumption), but the
code does not clip it, so it exceeds 1 when more readings than days
fall in the window. -/
theorem rollingAverage_confidence_eq_ratio (readings : List WeightReading)
    (targetDate windowDays : Int) (hw : 1 ≤ windowDays) :
    ((calculate7DayAverage readings targetDate windowDays).isValid = true →
      (calculate7DayAverage readings targetDate windowDays).confidence =
        ((calculate7DayAverage readings targetDate windowDays).readingCount : Rat) /
          (windowDays : Rat)) ∧
    0 ≤ (calculate7DayAverage readings targetDate windowDays).confidence ∧
    (((readings.filter fun r => inWindow targetDate windowDays r.date).length : Int)
        ≤ windowDays →
      (calculate7DayAverage readings targetDate windowDays).confidence ≤ 1) := by
  by_cases h : (readings.filter fun r => inWindow targetDate windowDays r.date).length < 3
  · rw [calculate7DayAverage_of_lt readings targetDate windowDays h]
    refine ⟨fun hv => absurd hv (by simp), le_refl 0, fun _ => by norm_num⟩
  · rw [calculate7DayAverage_of_ge readings targetDate windowDays h]
    have hwpos : (0 : Rat) < (windowDays : Rat) := by
      exact_mod_cast hw
    refine ⟨fun _ => rfl, ?_, ?_⟩
    · exact div_nonneg (by positivity) (le_of_lt hwpos)
    · intro hle
      rw [div_le_one hwpos]
      exact_mod_cast hle

/-- Witness for `rollingAverage_confidence_eq_ratio`: the spec's
scenario — three readings on consecutive days ending at the target
date, window 7 — gives confidence exactly `3/7`, which lies in
`[0, 1]`. -/
theorem rollingAverage_confidence_eq_ratio_witness :
    (calculate7DayAverage
        [⟨5, 182, none, none⟩, ⟨6, (363:Rat)/2, none, none⟩, ⟨7, 181, none, none⟩]
        7 7).confidence = (3 : Rat) / 7 ∧
    0 ≤ (calculate7DayAverage
        [⟨5, 182, none, none⟩, ⟨6, (363:Rat)/2, none, none⟩, ⟨7, 181, none, none⟩]
        7 7).confidence ∧
    (calculate7DayAverage
        [⟨5, 182, none, none⟩, ⟨6, (363:Rat)/2, none, none⟩, ⟨7, 181, none, none⟩]
        7 7).confidence ≤ 1 := by
  have h := rollingAverage_confidence_eq_ratio
    [⟨5, 182, none, none⟩, ⟨6, (363:Rat)/2, none, none⟩, ⟨7, 181, none, none⟩]
    7 7 (by decide)
  refine ⟨?_, h.2.1, h.2.2 (by decide)⟩
  have hv := h.1 (by decide)
  have hrc : (calculate7DayAverage
      [⟨5, 182, none, none⟩, ⟨6, (363:Rat)/2, none, none⟩, ⟨7, 181, none, none⟩]
      7 7).readingCount = 3 := by
    rw [calculate7DayAverage_of_ge _ 7 7 (by decide)]
    norm_num [inWindow, List.filter]
  rw [hv, hrc]
  norm_num

/-! ## Phase suggestion (`src/mcp-server/src/utils/calculations.ts`,
mirrored by `PhaseDetector.swift`) -/

/-- Training phase (`type Phase = 'cut' | 'maintenance' | 'bulk'`). -/
inductive Phase where
  | cut
  | maintenance
  | bulk
deriving Repr, DecidableEq

/-- The score record `{ cut: 0, maintenance: 0, bulk: 0 }` built up by
`suggestPhase`. -/
structure Scores where
  cut : Rat
  maintenance : Rat
  bulk : Rat
deriving Repr, DecidableEq

def Scores.get (sc : Scores) : Phase → Rat
  | .cut => sc.cut
  | .maintenance => sc.maintenance
  | .bulk => sc.bulk

/-- Calorie-balance signal of `suggestPhase`: `+1.0` to one bucket,
plus a borderline `+0.5` to cut/bulk inside the maintenance band. -/
def calorieScores (avgDailySurplus : Rat) : Scores :=
  if avgDailySurplus < -300 then { cut := 1, maintenance := 0, bulk := 0 }
  else if avgDailySurplus > 300 then { cut := 0, maintenance := 0, bulk := 1 }
  else
    let base : Scores := { cut := 0, maintenance := 1, bulk := 0 }
    if avgDailySurplus < -200 then { base with cut := base.cut + 1/2 }
    else if avgDailySurplus > 200 then { base with bulk := base.bulk + 1/2 }
    else base

/-- Weight-trend signal of `suggestPhase`, mirroring the calorie rule
at the `±0.5` / `±0.3` lb thresholds. -/
def weightScores (avgWeeklyWeightChange : Rat) : Scores :=
  if avgWeeklyWeightChange < -(1/2) then { cut := 1, maintenance := 0, bulk := 0 }
  else if avgWeeklyWeightChange > 1/2 then { cut := 0, maintenance := 0, bulk := 1 }
  else
    let base : Scores := { cut := 0, maintenance := 1, bulk := 0 }
    if avgWeeklyWeightChange < -(3/10) then { base with cut := base.cut + 1/2 }
    else if avgWeeklyWeightChange > 3/10 then { base with bulk := base.bulk + 1/2 }
    else base

/-- Combined scores of both signals (the two `+=` passes over the
shared `scores` record). -/
def phaseScores (avgDailySurplus avgWeeklyWeightChange : Rat) : Scores :=
  let c := calorieScores avgDailySurplus
  let w := weightScores avgWeeklyWeightChange
  { cut := c.cut + w.cut
    maintenance := c.maintenance + w.maintenance
    bulk := c.bulk + w.bulk }

/-- Stable descending insertion into a score-sorted list.  Models the
ES2019-stable `entries.sort((a, b) => b[1] - a[1])`: an element is
inserted before the first strictly smaller score, so elements with
equal scores keep their original relative order. -/
def insertDesc (e : Phase × Rat) : List (Phase × Rat) → List (Phase × Rat)
  | [] => [e]
  | x :: xs => if e.2 ≥ x.2 then e :: x :: xs else x :: insertDesc e xs

/-- Stable descending sort by score (see `insertDesc`). -/
def sortDesc : List (Phase × Rat) → List (Phase × Rat)
  | [] => []
  | x :: xs => insertDesc x (sortDesc xs)

/-- Qualitative calorie bucket used by `generateReasoning`. -/
def calorieDesc (calorieBalance : Rat) : String :=
  if calorieBalance < -200 then "deficit"
  else if calorieBalance > 200 then "surplus" else "balanced"

/-- Qualitative weight bucket used by `generateReasoning`. -/
def weightDesc (weightTrend : Rat) : String :=
  if weightTrend < -(3/10) then "losing"
  else if weightTrend > 3/10 then "gaining" else "maintaining"

/-- `generateReasoning` in `calculations.ts`. -/
def generateReasoning (phase : Phase) (calorieBalance weightTrend : Rat) : String :=
  match phase with
  | .cut =>
      "In a calorie " ++ calorieDesc calorieBalance ++ ", " ++
        weightDesc weightTrend ++ " weight. Suggests cutting phase."
  | .maintenance =>
      "Calories " ++ calorieDesc calorieBalance ++ ", weight " ++
        weightDesc weightTrend ++ ". Suggests maintenance."
  | .bulk =>
      "In a calorie " ++ calorieDesc calorieBalance ++ ", " ++
        weightDesc weightTrend ++ " weight. Suggests bulking phase."

/-- Result record of `suggestPhase`. -/
structure PhaseSuggestion where
  suggestedPhase : Phase
  confidence : Rat
  reasoning : String
  calorieBalance : Rat
  weightTrend : Rat
deriving Repr, DecidableEq

/-- `suggestPhase` in `calculations.ts`: score the two signals,
stable-sort the entries `[cut, maintenance, bulk]` (the insertion
order of `Object.entries` on the literal `{cut, maintenance, bulk}`)
by descending score, and take the first entry. -/
def suggestPhase (avgDailySurplus avgWeeklyWeightChange : Rat) : PhaseSuggestion :=
  let scores := phaseScores avgDailySurplus avgWeeklyWeightChange
  let entries : List (Phase × Rat) :=
    [(.cut, scores.cut), (.maintenance, scores.maintenance), (.bulk, scores.bulk)]
  let sorted := sortDesc entries
  let suggestedPhase := (sorted.headD (.maintenance, 0)).1
  let maxScore := (sorted.headD (.maintenance, 0)).2
  let confidence := maxScore / 2
  { suggestedPhase := suggestedPhase
    confidence := confidence
    reasoning := generateReasoning suggestedPhase avgDailySurplus avgWeeklyWeightChange
    calorieBalance := avgDailySurplus
    weightTrend := avgWeeklyWeightChange }

/-- Winner **as the claim words it**: the first of
`{cut, maintenance, bulk}` in that fixed order among the phases tied
for the highest combined score. -/
def claimWinner (sc : Scores) : Phase :=
  if sc.maintenance ≤ sc.cut ∧ sc.bulk ≤ sc.cut then .cut
  else if sc.bulk ≤ sc.maintenance then .maintenance
  else .bulk

lemma insertDesc_cons (e x : Phase × Rat) (xs : List (Phase × Rat)) :
    insertDesc e (x :: xs) =
      if e.2 ≥ x.2 then e :: x :: xs else x :: insertDesc e xs := rfl

lemma insertDesc_cons_of_ge (e x : Phase × Rat) (xs : List (Phase × Rat))
    (h : x.2 ≤ e.2) : insertDesc e (x :: xs) = e :: x :: xs := by
  rw [insertDesc_cons, if_pos h]

lemma insertDesc_cons_of_lt (e x : Phase × Rat) (xs : List (Phase × Rat))
    (h : e.2 < x.2) : insertDesc e (x :: xs) = x :: insertDesc e xs := by
  rw [insertDesc_cons, if_neg (not_le.mpr h)]

lemma sortDesc_head3 (pa pb pc : Phase) (a b c : Rat) :
    ((sortDesc [(pa, a), (pb, b), (pc, c)]).headD (.maintenance, 0)) =
      if b ≤ a ∧ c ≤ a then (pa, a) else if c ≤ b then (pb, b) else (pc, c) := by
  show ((insertDesc (pa, a) (insertDesc (pb, b) (insertDesc (pc, c) []))).headD
          (.maintenance, 0)) = _
  rcases le_or_lt c b with hcb | hcb
  · rw [show insertDesc (pc, c) [] = [(pc, c)] from rfl,
        insertDesc_cons_of_ge (pb, b) (pc, c) [] hcb]
    rcases le_or_lt b a with hba | hba
    · rw [insertDesc_cons_of_ge (pa, a) (pb, b) _ hba,
          if_pos ⟨hba, le_trans hcb hba⟩]
      rfl
    · rw [insertDesc_cons_of_lt (pa, a) (pb, b) _ hba,
          if_neg (fun h => absurd h.1 (not_le.mpr hba)), if_pos hcb]
      rfl
  · rw [show insertDesc (pc, c) [] = [(pc, c)] from rfl,
        insertDesc_cons_of_lt (pb, b) (pc, c) [] hcb,
        show insertDesc (pb, b) [] = [(pb, b)] from rfl]
    rcases le_or_lt c a with hca | hca
    · rw [insertDesc_cons_of_ge (pa, a) (pc, c) _ hca,
          if_pos ⟨le_trans (le_of_lt hcb) hca, hca⟩]
      rfl
    · rw [insertDesc_cons_of_lt (pa, a) (pc, c) _ hca,
          if_neg (fun h => absurd h.2 (not_le.mpr hca)), if_neg (not_le.mpr hcb)]
      rfl

lemma sortDesc3_fst (A B C : Rat) :
    ((sortDesc [(Phase.cut, A), (Phase.maintenance, B), (Phase.bulk, C)]).headD
        (Phase.maintenance, 0)).1 = claimWinner ⟨A, B, C⟩ := by
  rw [sortDesc_head3]
  show _ = if B ≤ A ∧ C ≤ A then Phase.cut
           else if C ≤ B then Phase.maintenance else Phase.bulk
  by_cases h1 : B ≤ A ∧ C ≤ A
  · rw [if_pos h1, if_pos h1]
  · rw [if_neg h1, if_neg h1]
    by_cases h2 : C ≤ B
    · rw [if_pos h2, if_pos h2]
    · rw [if_neg h2, if_neg h2]

lemma sortDesc3_snd (A B C : Rat) :
    ((sortDesc [(Phase.cut, A), (Phase.maintenance, B), (Phase.bulk, C)]).headD
        (Phase.maintenance, 0)).2 = max (max A B) C := by
  rw [sortDesc_head3]
  by_cases h1 : B ≤ A ∧ C ≤ A
  · rw [if_pos h1]
    show A = _
    rw [max_eq_left h1.1, max_eq_left h1.2]
  · rw [if_neg h1]
    by_cases h2 : C ≤ B
    · rw [if_pos h2]
      show B = _
      rcases le_or_lt B A with hba | hba
      · exact absurd ⟨hba, le_trans h2 hba⟩ h1
      · rw [max_eq_right (le_of_lt hba), max_eq_left h2]
    · rw [if_neg h2]
      show C = _
      have hbc := not_le.mp h2
      have hac : A < C := by
        rcases le_or_lt C A with h | h
        · exact absurd ⟨le_of_lt (lt_of_lt_of_le hbc h), h⟩ h1
        · exact h
      rw [max_eq_right (max_le (le_of_lt hac) (le_of_lt hbc))]

lemma get_claimWinner_eq_max (sc : Scores) :
    sc.get (claimWinner sc) = max (max sc.cut sc.maintenance) sc.bulk := by
  unfold claimWinner
  by_cases h1 : sc.maintenance ≤ sc.cut ∧ sc.bulk ≤ sc.cut
  · rw [if_pos h1]
    show sc.cut = _
    rw [max_eq_left h1.1, max_eq_left h1.2]
  · rw [if_neg h1]
    by_cases h2 : sc.bulk ≤ sc.maintenance
    · rw [if_pos h2]
      show sc.maintenance = _
      rcases le_or_lt sc.maintenance sc.cut with hba | hba
      · exact absurd ⟨hba, le_trans h2 hba⟩ h1
      · rw [max_eq_right (le_of_lt hba), max_eq_left h2]
    · rw [if_neg h2]
      show sc.bulk = _
      have hbc := not_le.mp h2
      have hac : sc.cut < sc.bulk := by
        rcases le_or_lt sc.bulk sc.cut with h | h
        · exact absurd ⟨le_of_lt (lt_of_lt_of_le hbc h), h⟩ h1
        · exact h
      rw [max_eq_right (max_le (le_of_lt hac) (le_of_lt hbc))]

/-- **C4.** For every pair (average daily calorie surplus, average
weekly weight change), the phase-suggestion operation returns the
phase whose combined score is highest, and when two or more phases tie
for the highest combined score, the winner is the first of
`{cut, maintenance, bulk}` in that fixed order among the tied phases
(`Object.entries` insertion order plus the ES2019-stable
`Array.prototype.sort`). -/
theorem suggestPhase_picks_highest_with_fixed_tiebreak (s t : Rat) :
    (suggestPhase s t).suggestedPhase = claimWinner (phaseScores s t) ∧
    (phaseScores s t).get (suggestPhase s t).suggestedPhase =
      max (max (phaseScores s t).cut (phaseScores s t).maintenance)
        (phaseScores s t).bulk := by
  have h1 : (suggestPhase s t).suggestedPhase = claimWinner (phaseScores s t) :=
    sortDesc3_fst (phaseScores s t).cut (phaseScores s t).maintenance
      (phaseScores s t).bulk
  refine ⟨h1, ?_⟩
  rw [h1, get_claimWinner_eq_max]

/-- The winning combined score (`maxScore` in `suggestPhase`),
expressed as the maximum of the three bucket scores. -/
def topScore (s t : Rat) : Rat :=
  max (max (phaseScores s t).cut (phaseScores s t).maintenance) (phaseScores s t).bulk

lemma topScore_bounds (s t : Rat) : 1 ≤ topScore s t ∧ topScore s t ≤ 2 := by
  unfold topScore
  simp only [phaseScores, calorieScores, weightScores]
  split_ifs <;>
    simp only [le_max_iff, max_le_iff] <;>
    norm_num

/-- **C5.** For every pair (average daily calorie surplus, average
weekly weight change), the phase-suggestion operation returns
confidence equal to the winning phase's combined score divided by
`2.0`, and this confidence always lies in `[0.5, 1.0]` (the winning
score is never below `1.0` and never above `2.0`). -/
theorem suggestPhase_confidence_half_of_winning_score (s t : Rat) :
    (suggestPhase s t).confidence = topScore s t / 2 ∧
    1 ≤ topScore s t ∧ topScore s t ≤ 2 ∧
    1/2 ≤ (suggestPhase s t).confidence ∧ (suggestPhase s t).confidence ≤ 1 := by
  have h2 := sortDesc3_snd (phaseScores s t).cut (phaseScores s t).maintenance
    (phaseScores s t).bulk
  have hconf : (suggestPhase s t).confidence = topScore s t / 2 := by
    show ((sortDesc [(Phase.cut, (phaseScores s t).cut),
                     (Phase.maintenance, (phaseScores s t).maintenance),
                     (Phase.bulk, (phaseScores s t).bulk)]).headD
            (Phase.maintenance, 0)).2 / 2
         = topScore s t / 2
    rw [h2]
    rfl
  obtain ⟨hlo, hhi⟩ := topScore_bounds s t
  refine ⟨hconf, hlo, hhi, ?_, ?_⟩
  · rw [hconf]
    linarith
  · rw [hconf]
    linarith

/-! ## Week records, persistence and adherence
(`src/mcp-server/src/db/queries.ts`, `src/mcp-server/src/db/schema.sql`,
tool report builders in `src/mcp-server/src/tools/`) -/

/-- JavaScript truthiness of a nullable number: `null`/`undefined` and
`0` are falsy. -/
def jsTruthy : Option Rat → Bool
  | none => false
  | some v => decide (v ≠ 0)

/-- JavaScript truthiness of a nullable string: `null`/`undefined` and
`""` are falsy. -/
def jsTruthyStr : Option String → Bool
  | none => false
  | some s => decide (s ≠ "")

/-- JavaScript `x || d` on nullable numbers. -/
def jsOr (x : Option Rat) (d : Rat) : Rat :=
  match x with
  | none => d
  | some v => if v = 0 then d else v

/-- JavaScript `x || null` on nullable numbers: `0` collapses to
`null`. -/
def jsOrNull (x : Option Rat) : Option Rat :=
  match x with
  | none => none
  | some v => if v = 0 then none else some v

/-- JavaScript `x || d` on nullable strings. -/
def jsOrStr (x : Option String) (d : String) : String :=
  match x with
  | none => d
  | some s => if s = "" then d else s

/-- JavaScript `x || null` on nullable strings: `""` collapses to
`null`. -/
def jsOrNullStr (x : Option String) : Option String :=
  match x with
  | none => none
  | some s => if s = "" then none else some s

/-- A row of the `weeks` table as read back by `getWeekByStartDate`
(`WeekRecord` in `queries.ts`).  Dates are day numbers (ISO date
strings compare lexicographically iff chronologically); targets are
non-nullable numbers as in the TypeScript interface; actuals and
derived body metrics are nullable.  `id` and the `created_at` /
`updated_at` timestamps play no role in the claims and are omitted. -/
structure WeekRow where
  start_date : Int
  end_date : Int
  target_calories : Rat
  target_protein : Rat
  target_steps : Rat
  target_cardio : Rat
  phase : String
  total_steps : Option Rat
  total_calories : Option Rat
  total_protein : Option Rat
  total_cardio_calories : Option Rat
  average_weight : Option Rat
  week_over_week_weight_change : Option Rat
  body_fat_percentage : Option Rat
  body_fat_change : Option Rat
  muscle_mass_percentage : Option Rat
  muscle_mass_change : Option Rat
  is_complete : Rat
  completed_at : Option String
deriving Repr, DecidableEq

/-- A JavaScript number that may be the non-finite result of dividing
by zero. -/
inductive JsNum where
  | finite (q : Rat)
  | infinite
deriving Repr, DecidableEq

/-- JavaScript division: `x / 0` is non-finite (`Infinity`;
the sign does not matter for the claims). -/
def jsDiv (x y : Rat) : JsNum :=
  if y = 0 then .infinite else .finite (x / y)

def JsNum.add : JsNum → JsNum → JsNum
  | .finite a, .finite b => .finite (a + b)
  | _, _ => .infinite

def JsNum.mul100 : JsNum → JsNum
  | .finite a => .finite (a * 100)
  | .infinite => .infinite

def JsNum.divNat (x : JsNum) (n : Nat) : JsNum :=
  match x with
  | .finite a => .finite (a / (n : Rat))
  | .infinite => .infinite

def jsSum (l : List JsNum) : JsNum := l.foldl JsNum.add (.finite 0)

/-- Display-format abstraction of `toFixed(1)` / `toLocaleString()`:
the digit rendering is irrelevant to every claim. -/
def ratStr (q : Rat) : String := toString q

/-- The actual-value cell of the calories / protein / cardio ACTUALS
lines in `week-summary.ts` (`${week.total_calories || 'N/A'}` etc.):
a falsy actual renders as `'N/A'`. -/
def actualCell (actual : Option Rat) : String :=
  if jsTruthy actual then ratStr (actual.getD 0) else "N/A"

/-- The actual-value cell of the **steps** ACTUALS line in
`week-summary.ts` (and the steps actual in `weekly-history.ts`):
`${week.total_steps?.toLocaleString() || 'N/A'}`.  Optional chaining
maps the number to a string first, so a stored `0` becomes the truthy
string `"0"` and is **not** replaced by `'N/A'`; only an absent value
(or an empty string, which number rendering never produces) falls back
to `'N/A'`. -/
def stepsActualCell (actual : Option Rat) : String :=
  jsOrStr (actual.map ratStr) "N/A"

/-- The adherence percentage of an ACTUALS line in `week-summary.ts`
(`week.total_calories ? \x7b((total/target)*100).toFixed(1)\x7d% : ''`):
computed exactly when the actual is truthy; the target is never
checked, so the division can hit a zero target. -/
def adherencePct (actual : Option Rat) (target : Rat) : Option JsNum :=
  if jsTruthy actual then some ((jsDiv (actual.getD 0) target).mul100) else none

/-- `phase-analysis.ts` line 93: weeks whose three actuals are all
truthy — targets are not inspected. -/
def weeksWithData (phaseWeeks : List WeekRow) : List WeekRow :=
  phaseWeeks.filter fun w =>
    jsTruthy w.total_calories && jsTruthy w.total_steps && jsTruthy w.total_protein

/-- `phase-analysis.ts` lines 95–97: average calorie adherence over
`weeksWithData`. -/
def avgCalAdherence (phaseWeeks : List WeekRow) : JsNum :=
  (jsSum ((weeksWithData phaseWeeks).map fun w =>
      (jsDiv (w.total_calories.getD 0) w.target_calories).mul100)).divNat
    (weeksWithData phaseWeeks).length

/-- `phase-analysis.ts` lines 98–100: average protein adherence over
`weeksWithData`. -/
def avgProteinAdherence (phaseWeeks : List WeekRow) : JsNum :=
  (jsSum ((weeksWithData phaseWeeks).map fun w =>
      (jsDiv (w.total_protein.getD 0) w.target_protein).mul100)).divNat
    (weeksWithData phaseWeeks).length

/-- A completed week whose calorie target is zero (reachable: `createWeek`
stores `week.target_calories || 0`, so a POST without targets persists
zeroes) while actual calories were recorded. -/
def zeroTargetWeek : WeekRow :=
  { start_date := 100
    end_date := 106
    target_calories := 0
    target_protein := 0
    target_steps := 0
    target_cardio := 0
    phase := "maintenance"
    total_steps := some 50000
    total_calories := some 14000
    total_protein := some 700
    total_cardio_calories := some 1200
    average_weight := some 180
    week_over_week_weight_change := some (-(1/2))
    body_fat_percentage := none
    body_fat_change := none
    muscle_mass_percentage := none
    muscle_mass_change := none
    is_complete := 1
    completed_at := some "2024-01-07" }

/-- **C6, counterexample.** The claim asserts that no adherence
expression ever divides by a missing or zero target.  The guard in
`week-summary.ts` checks only the actual: for a week with
`total_calories = 14000` and `target_calories = 0` the adherence
percentage is still computed, dividing by the zero target and
producing a non-finite value, and the `phase-analysis.ts` average over
such weeks is likewise non-finite. -/
theorem adherence_divides_by_zero_target :
    adherencePct zeroTargetWeek.total_calories zeroTargetWeek.target_calories =
      some JsNum.infinite ∧
    zeroTargetWeek.target_calories = 0 ∧
    avgCalAdherence [zeroTargetWeek] = JsNum.infinite := by
  refine ⟨?_, rfl, ?_⟩ <;>
    simp [adherencePct, jsTruthy, jsDiv, avgCalAdherence, weeksWithData, jsSum,
      JsNum.mul100, JsNum.divNat, JsNum.add, zeroTargetWeek]

lemma foldl_jsAdd_finite (l : List JsNum) (a : Rat)
    (h : ∀ x ∈ l, x ≠ JsNum.infinite) :
    l.foldl JsNum.add (.finite a) ≠ JsNum.infinite := by
  induction l generalizing a with
  | nil => simp [List.foldl]
  | cons x xs ih =>
      obtain ⟨b, rfl⟩ : ∃ b, x = JsNum.finite b := by
        cases x with
        | finite b => exact ⟨b, rfl⟩
        | infinite => exact absurd rfl (h _ (List.mem_cons_self _ _))
      exact ih (a + b) fun y hy => h y (List.mem_cons_of_mem _ hy)

/-- **C6, amended.** The adherence guards check only that the actual is
present and non-zero; the target is never inspected.  Consequently the
adherence expression is evaluated exactly when the actual is truthy,
and it divides by a zero target whenever the stored target is zero; it
never divides by zero *provided* every stored target is non-zero: under
that proviso every week-summary percentage and every phase-analysis
average is finite. -/
theorem adherence_guard_ignores_target (w : WeekRow) (ws : List WeekRow)
    (hw : w.target_calories ≠ 0 ∧ w.target_protein ≠ 0 ∧
          w.target_steps ≠ 0 ∧ w.target_cardio ≠ 0)
    (hws : ∀ u ∈ ws, u.target_calories ≠ 0 ∧ u.target_protein ≠ 0) :
    ((adherencePct w.total_calories w.target_calories).isSome ↔
        jsTruthy w.total_calories = true) ∧
    adherencePct w.total_calories w.target_calories ≠ some JsNum.infinite ∧
    adherencePct w.total_protein w.target_protein ≠ some JsNum.infinite ∧
    adherencePct w.total_steps w.target_steps ≠ some JsNum.infinite ∧
    adherencePct w.total_cardio_calories w.target_cardio ≠ some JsNum.infinite ∧
    avgCalAdherence ws ≠ JsNum.infinite ∧
    avgProteinAdherence ws ≠ JsNum.infinite := by
  obtain ⟨h1, h2, h3, h4⟩ := hw
  have hpct : ∀ (a : Option Rat) (tgt : Rat), tgt ≠ 0 →
      adherencePct a tgt ≠ some JsNum.infinite := by
    intro a tgt ht
    unfold adherencePct jsDiv
    by_cases hta : jsTruthy a
    · rw [if_pos hta, if_neg ht]
      intro hcontra
      simp [JsNum.mul100] at hcontra
    · rw [if_neg hta]
      intro hcontra
      cases hcontra
  refine ⟨?_, hpct _ _ h1, hpct _ _ h2, hpct _ _ h3, hpct _ _ h4, ?_, ?_⟩
  · unfold adherencePct
    by_cases hta : jsTruthy w.total_calories
    · simp [hta]
    · simp [hta]
  · unfold avgCalAdherence
    have hfin : ∀ x ∈ ((weeksWithData ws).map fun u =>
        (jsDiv (u.total_calories.getD 0) u.target_calories).mul100),
        x ≠ JsNum.infinite := by
      intro x hx
      obtain ⟨u, hu, rfl⟩ := List.mem_map.mp hx
      have := (hws u (List.mem_of_mem_filter hu)).1
      unfold jsDiv
      rw [if_neg this]
      simp [JsNum.mul100]
    have := foldl_jsAdd_finite _ 0 hfin
    unfold jsSum at this
    cases hsum : (jsSum ((weeksWithData ws).map fun u =>
        (jsDiv (u.total_calories.getD 0) u.target_calories).mul100)) with
    | finite a => simp [hsum, JsNum.divNat]
    | infinite => exact absurd hsum this
  · unfold avgProteinAdherence
    have hfin : ∀ x ∈ ((weeksWithData ws).map fun u =>
        (jsDiv (u.total_protein.getD 0) u.target_protein).mul100),
        x ≠ JsNum.infinite := by
      intro x hx
      obtain ⟨u, hu, rfl⟩ := List.mem_map.mp hx
      have := (hws u (List.mem_of_mem_filter hu)).2
      unfold jsDiv
      rw [if_neg this]
      simp [JsNum.mul100]
    have := foldl_jsAdd_finite _ 0 hfin
    unfold jsSum at this
    cases hsum : (jsSum ((weeksWithData ws).map fun u =>
        (jsDiv (u.total_protein.getD 0) u.target_protein).mul100)) with
    | finite a => simp [hsum, JsNum.divNat]
    | infinite => exact absurd hsum this

/-- A completed week with non-zero targets (the spec's adherence
scenario: `target_calories = 14000`, `total_calories = 10234`). -/
def normalWeek : WeekRow :=
  { zeroTargetWeek with
    target_calories := 14000
    target_protein := 1050
    target_steps := 70000
    target_cardio := 2000
    total_calories := some 10234 }

/-- Witness for `adherence_guard_ignores_target` at `normalWeek`. -/
theorem adherence_guard_ignores_target_witness :
    ((adherencePct normalWeek.total_calories normalWeek.target_calories).isSome ↔
        jsTruthy normalWeek.total_calories = true) ∧
    adherencePct normalWeek.total_calories normalWeek.target_calories ≠
      some JsNum.infinite ∧
    avgCalAdherence [normalWeek] ≠ JsNum.infinite := by
  have h := adherence_guard_ignores_target normalWeek [normalWeek]
    (by refine ⟨?_, ?_, ?_, ?_⟩ <;> norm_num [normalWeek, zeroTargetWeek])
    (by intro u hu
        rw [List.mem_singleton] at hu
        subst hu
        constructor <;> norm_num [normalWeek, zeroTargetWeek])
  exact ⟨h.1, h.2.1, h.2.2.2.2.2.1⟩

/-! ## Week persistence round trip
(`createWeek` / `getWeekByStartDate` in `queries.ts`) -/

/-- The `Partial<WeekRecord>` accepted by `createWeek`: every field may
be absent (`undefined`).  `id` and timestamps are omitted as in
`WeekRow`; `start_date` / `end_date` are kept required because the
`POST /api/weeks` caller always supplies them and they are bound
verbatim. -/
structure WeekInput where
  start_date : Int
  end_date : Int
  target_calories : Option Rat := none
  target_protein : Option Rat := none
  target_steps : Option Rat := none
  target_cardio : Option Rat := none
  phase : Option String := none
  total_steps : Option Rat := none
  total_calories : Option Rat := none
  total_protein : Option Rat := none
  total_cardio_calories : Option Rat := none
  average_weight : Option Rat := none
  week_over_week_weight_change : Option Rat := none
  body_fat_percentage : Option Rat := none
  body_fat_change : Option Rat := none
  muscle_mass_percentage : Option Rat := none
  muscle_mass_change : Option Rat := none
  is_complete : Option Rat := none
  completed_at : Option String := none
deriving Repr, DecidableEq

/-- The row stored by `createWeek`'s INSERT: targets are bound as
`week.target_x || 0`, the phase as `week.phase || 'maintenance'`,
actuals and derived metrics as `week.x || null`, and
`week.is_complete || 0`. -/
def storedWeek (week : WeekInput) : WeekRow :=
  { start_date := week.start_date
    end_date := week.end_date
    target_calories := jsOr week.target_calories 0
    target_protein := jsOr week.target_protein 0
    target_steps := jsOr week.target_steps 0
    target_cardio := jsOr week.target_cardio 0
    phase := jsOrStr week.phase "maintenance"
    total_steps := jsOrNull week.total_steps
    total_calories := jsOrNull week.total_calories
    total_protein := jsOrNull week.total_protein
    total_cardio_calories := jsOrNull week.total_cardio_calories
    average_weight := jsOrNull week.average_weight
    week_over_week_weight_change := jsOrNull week.week_over_week_weight_change
    body_fat_percentage := jsOrNull week.body_fat_percentage
    body_fat_change := jsOrNull week.body_fat_change
    muscle_mass_percentage := jsOrNull week.muscle_mass_percentage
    muscle_mass_change := jsOrNull week.muscle_mass_change
    is_complete := jsOr week.is_complete 0
    completed_at := jsOrNullStr week.completed_at }

/-- `createWeek`: INSERT the coerced row into the `weeks` table
(modelled as a list of rows). -/
def createWeek (table : List WeekRow) (week : WeekInput) : List WeekRow :=
  table ++ [storedWeek week]

/-- `getWeekByStartDate`:
`SELECT * FROM weeks WHERE start_date = ? LIMIT 1`. -/
def getWeekByStartDate (table : List WeekRow) (startDate : Int) : Option WeekRow :=
  table.find? fun w => w.start_date == startDate

/-- A week input with a zero actual (`total_calories = 0`, e.g. a week
during which no calories were logged yet but the field was sent as
`0`). -/
def zeroActualInput : WeekInput :=
  { start_date := 200
    end_date := 206
    target_calories := some 14000
    target_protein := some 1050
    target_steps := some 70000
    target_cardio := some 2000
    phase := some "cut"
    total_calories := some 0 }

/-- **C9, counterexample.** The claim asserts the round trip is lossless
for target/actual/phase fields.  Persisting a week whose
`total_calories` is `0` and re-reading it by start date yields
`total_calories = null`: the `week.total_calories || null` binding in
`createWeek` coerces the zero actual to null.  (Dually, an absent
target is read back as `0` and an absent phase as `'maintenance'`.) -/
theorem createWeek_roundtrip_lossy :
    (getWeekByStartDate (createWeek [] zeroActualInput) 200).map
        (·.total_calories) = some none ∧
    zeroActualInput.total_calories = some 0 ∧
    (getWeekByStartDate
        (createWeek [] { start_date := 201, end_date := 207 }) 201).map
        (·.target_calories) = some (0 : Rat) ∧
    ({ start_date := 201, end_date := 207 } : WeekInput).target_calories = none := by
  refine ⟨?_, rfl, ?_, rfl⟩ <;> rfl

/-- **C9, amended.** Persisting a `WeekRecord` into an empty store and
re-reading it by start date yields identical target, actual, and phase
fields **provided** every target and the phase are present (the phase
non-empty) and every actual/derived field is either absent or
non-zero; outside that proviso the round trip coerces a missing
target to `0`, a missing phase to `'maintenance'`, and a zero
actual/derived value to null. -/
theorem createWeek_roundtrip_preserves (week : WeekInput)
    (htc : week.target_calories ≠ none) (htp : week.target_protein ≠ none)
    (hts : week.target_steps ≠ none) (htcd : week.target_cardio ≠ none)
    (hph : week.phase ≠ none ∧ week.phase ≠ some "")
    (hc : week.total_calories ≠ some 0) (hp : week.total_protein ≠ some 0)
    (hs : week.total_steps ≠ some 0) (hcc : week.total_cardio_calories ≠ some 0) :
    ∃ w : WeekRow,
      getWeekByStartDate (createWeek [] week) week.start_date = some w ∧
      some w.target_calories = week.target_calories ∧
      some w.target_protein = week.target_protein ∧
      some w.target_steps = week.target_steps ∧
      some w.target_cardio = week.target_cardio ∧
      some w.phase = week.phase ∧
      w.total_calories = week.total_calories ∧
      w.total_protein = week.total_protein ∧
      w.total_steps = week.total_steps ∧
      w.total_cardio_calories = week.total_cardio_calories := by
  refine ⟨storedWeek week, ?_, ?_, ?_, ?_, ?_, ?_, ?_, ?_, ?_, ?_⟩
  · simp [getWeekByStartDate, createWeek, storedWeek]
  · obtain ⟨v, hv⟩ := Option.ne_none_iff_exists'.mp htc
    by_cases hz : v = 0
    · simp [storedWeek, jsOr, hv, hz]
    · simp [storedWeek, jsOr, hv, hz]
  · obtain ⟨v, hv⟩ := Option.ne_none_iff_exists'.mp htp
    by_cases hz : v = 0
    · simp [storedWeek, jsOr, hv, hz]
    · simp [storedWeek, jsOr, hv, hz]
  · obtain ⟨v, hv⟩ := Option.ne_none_iff_exists'.mp hts
    by_cases hz : v = 0
    · simp [storedWeek, jsOr, hv, hz]
    · simp [storedWeek, jsOr, hv, hz]
  · obtain ⟨v, hv⟩ := Option.ne_none_iff_exists'.mp htcd
    by_cases hz : v = 0
    · simp [storedWeek, jsOr, hv, hz]
    · simp [storedWeek, jsOr, hv, hz]
  · obtain ⟨v, hv⟩ := Option.ne_none_iff_exists'.mp hph.1
    have : v ≠ "" := by
      intro h
      exact hph.2 (by rw [hv, h])
    simp [storedWeek, jsOrStr, hv, this]
  · cases hx : week.total_calories with
    | none => simp [storedWeek, jsOrNull, hx]
    | some v =>
        have : v ≠ 0 := fun h => hc (by rw [hx, h])
        simp [storedWeek, jsOrNull, hx, this]
  · cases hx : week.total_protein with
    | none => simp [storedWeek, jsOrNull, hx]
    | some v =>
        have : v ≠ 0 := fun h => hp (by rw [hx, h])
        simp [storedWeek, jsOrNull, hx, this]
  · cases hx : week.total_steps with
    | none => simp [storedWeek, jsOrNull, hx]
    | some v =>
        have : v ≠ 0 := fun h => hs (by rw [hx, h])
        simp [storedWeek, jsOrNull, hx, this]
  · cases hx : week.total_cardio_calories with
    | none => simp [storedWeek, jsOrNull, hx]
    | some v =>
        have : v ≠ 0 := fun h => hcc (by rw [hx, h])
        simp [storedWeek, jsOrNull, hx, this]

/-- Witness for `createWeek_roundtrip_preserves`: a fully-specified
week with non-zero actuals round-trips losslessly. -/
theorem createWeek_roundtrip_preserves_witness :
    ∃ w : WeekRow,
      getWeekByStartDate (createWeek []
        { start_date := 300, end_date := 306
          target_calories := some 14000, target_protein := some 1050
          target_steps := some 70000, target_cardio := some 2000
          phase := some "bulk", total_calories := some 15000
          total_protein := some 1100, total_steps := some 71000
          total_cardio_calories := some 1800 }) 300 = some w ∧
      some w.target_calories = some (14000 : Rat) ∧
      some w.phase = some "bulk" ∧
      w.total_calories = some (15000 : Rat) := by
  obtain ⟨w, h0, h1, _, _, _, h5, h6, _⟩ := createWeek_roundtrip_preserves
    { start_date := 300, end_date := 306
      target_calories := some 14000, target_protein := some 1050
      target_steps := some 70000, target_cardio := some 2000
      phase := some "bulk", total_calories := some 15000
      total_protein := some 1100, total_steps := some 71000
      total_cardio_calories := some 1800 }
    (by simp) (by simp) (by simp) (by simp)
    (by constructor <;> simp) (by simp) (by simp) (by simp) (by simp)
  exact ⟨w, h0, h1, h5, h6⟩

/-! ## Week-summary rendering of zero actuals (`week-summary.ts`) -/

/-- A completed week whose stored steps total is zero. -/
def zeroStepsWeek : WeekRow := { normalWeek with total_steps := some 0 }

/-- **C10, counterexample.** The claim says every zero stored actual is
rendered as `'N/A'` with no adherence percentage, indistinguishable
from an absent actual.  That fails for the steps metric:
`week-summary.ts` line 51 renders it via
`week.total_steps?.toLocaleString() || 'N/A'`, and for a stored `0`
the optional chain produces the truthy string `"0"`, so the report
shows `0`, distinguishable from the `'N/A'` of an absent actual. -/
theorem weekSummary_zero_steps_rendered_as_zero :
    stepsActualCell zeroStepsWeek.total_steps = "0" ∧
    zeroStepsWeek.total_steps = some 0 ∧
    stepsActualCell zeroStepsWeek.total_steps ≠ "N/A" ∧
    stepsActualCell ({ zeroStepsWeek with total_steps := none }).total_steps =
      "N/A" := by
  refine ⟨rfl, rfl, by decide, rfl⟩

/-- **C10, amended.** In the week-summary tool's output, for every week
whose stored actual total for the calories, protein, or cardio metric
equals zero, the actual is rendered as `'N/A'` and no adherence
percentage is shown — indistinguishable from an absent actual.  For
the steps metric, rendered through optional chaining
(`total_steps?.toLocaleString() || 'N/A'`), a stored zero is shown as
`'0'`, distinguishable from an absent actual, though its adherence
percentage is likewise suppressed. -/
theorem weekSummary_zero_actual_rendering (w : WeekRow) :
    actualCell ({ w with total_calories := some 0 }).total_calories = "N/A" ∧
    adherencePct ({ w with total_calories := some 0 }).total_calories
      ({ w with total_calories := some 0 }).target_calories = none ∧
    actualCell ({ w with total_calories := some 0 }).total_calories =
      actualCell ({ w with total_calories := none }).total_calories ∧
    actualCell ({ w with total_protein := some 0 }).total_protein = "N/A" ∧
    adherencePct ({ w with total_protein := some 0 }).total_protein
      ({ w with total_protein := some 0 }).target_protein = none ∧
    actualCell
        ({ w with total_cardio_calories := some 0 }).total_cardio_calories =
      "N/A" ∧
    adherencePct
        ({ w with total_cardio_calories := some 0 }).total_cardio_calories
      ({ w with total_cardio_calories := some 0 }).target_cardio = none ∧
    stepsActualCell ({ w with total_steps := some 0 }).total_steps = "0" ∧
    stepsActualCell ({ w with total_steps := some 0 }).total_steps ≠
      stepsActualCell ({ w with total_steps := none }).total_steps ∧
    adherencePct ({ w with total_steps := some 0 }).total_steps
      ({ w with total_steps := some 0 }).target_steps = none := by
  refine ⟨rfl, rfl, rfl, rfl, rfl, rfl, rfl, rfl, ?_, rfl⟩
  show stepsActualCell (some 0) ≠ stepsActualCell none
  decide

/-! ## HTTP dispatch and authentication
(`src/mcp-server/src/index.ts`, `src/mcp-server/src/auth.ts`,
`src/mcp-server/src/api/routes.ts`)

Hono composes the handlers and middleware matching a request in
registration order; a handler that returns a response terminates the
chain, so middleware registered *after* a route never runs for
requests that route handles.  `index.ts` registers
`app.route('/api', apiRoutes)` **before**
`app.use('/api/*', authMiddleware)`. -/

inductive Method where
  | get
  | post
  | put
deriving Repr, DecidableEq

/-- An incoming HTTP request: method, path segments, and the
`Authorization` header (absent = `none`). -/
structure Request where
  method : Method
  path : List String
  authHeader : Option String
deriving Repr, DecidableEq

/-- Outcome of dispatching a request through the worker. -/
inductive Response where
  /-- An `/api` route handler from `routes.ts` ran (its own status then
  depends only on the database, never on authentication). -/
  | handled (route : String)
  /-- `authMiddleware` short-circuited with this status and message. -/
  | authError (status : Nat) (msg : String)
  /-- The unauthenticated `GET /` info handler. -/
  | info
  /-- The `POST /mcp` handler ran (after passing `authMiddleware`). -/
  | mcp
  /-- Hono's 404 fallback. -/
  | notFound
deriving Repr, DecidableEq

/-- Outcome of a middleware: respond immediately, or call `next()`. -/
inductive MiddlewareResult where
  | respond (status : Nat) (msg : String)
  | next
deriving Repr, DecidableEq

/-- Splitting a character list at spaces (JavaScript
`String.prototype.split(' ')`), by structural recursion so that it
evaluates on literals. -/
def splitSpaceAux : List Char → List (List Char)
  | [] => [[]]
  | c :: rest =>
      let r := splitSpaceAux rest
      if c = ' ' then [] :: r
      else (c :: r.headD []) :: r.tail

/-- JavaScript `s.split(' ')`. -/
def splitSpace (s : String) : List String :=
  (splitSpaceAux s.toList).map String.mk

/-- `authMiddleware` in `auth.ts`: requires an `Authorization` header
of the form `Bearer <token>` with `token === env.API_KEY`; missing or
malformed header → 401, unset `API_KEY` → 500, wrong token → 403.
An absent array element (`parts[1]` = `undefined`) is modelled as
`""` — both are falsy and both fail `token === apiKey` for a set
key. -/
def authMiddleware (apiKey : Option String) (authHeader : Option String) :
    MiddlewareResult :=
  match authHeader with
  | none => .respond 401 "Missing Authorization header"
  | some h =>
    if h = "" then .respond 401 "Missing Authorization header"
    else
      let parts := splitSpace h
      let scheme := parts.headD ""
      let token := (parts.drop 1).headD ""
      if scheme ≠ "Bearer" ∨ token = "" then
        .respond 401 "Invalid Authorization header format. Use: Bearer <token>"
      else
        match apiKey with
        | none => .respond 500 "Server configuration error: API_KEY not set"
        | some key =>
          if key = "" then .respond 500 "Server configuration error: API_KEY not set"
          else if token ≠ key then .respond 403 "Invalid API key"
          else .next

/-- The route table of `routes.ts`, mounted under `/api` (path given
relative to the mount point): returns the handler's tag when some
route matches. -/
def apiRouteMatch (method : Method) (path : List String) : Option String :=
  match method, path with
  | .get, ["health"] => some "health"
  | .get, ["current-week"] => some "current-week"
  | .get, ["weeks", _] => some "week-by-start-date"
  | .get, ["weeks"] => some "weeks-list"
  | .post, ["weeks"] => some "weeks-create"
  | .put, ["weeks", _, "targets"] => some "week-targets-update"
  | .post, ["weight"] => some "weight-create"
  | .get, ["weight"] => some "weight-list"
  | .get, ["weight", "average"] => some "weight-average"
  | .post, ["daily-metrics"] => some "daily-metrics-create"
  | .get, ["daily-metrics"] => some "daily-metrics-list"
  | .get, ["body-composition"] => some "body-composition"
  | _, _ => none

/-- The worker's dispatch, in the registration order of `index.ts`:
1. `cors()` on `/*` (always calls `next()`);
2. `GET /` info handler;
3. `app.route('/api', apiRoutes)` — the API route handlers;
4. `app.use('/api/*', authMiddleware)` — reached only when no API
   route already handled the request;
5. `POST /mcp` with `authMiddleware` inline;
6. the 404 fallback. -/
def appDispatch (apiKey : Option String) (req : Request) : Response :=
  match req.method, req.path with
  | .get, [] => .info
  | _, _ =>
    match req.path with
    | "api" :: rest =>
      match apiRouteMatch req.method rest with
      | some route => .handled route
      | none =>
        match authMiddleware apiKey req.authHeader with
        | .respond s m => .authError s m
        | .next => .notFound
    | _ =>
      match req.method, req.path with
      | .post, ["mcp"] =>
        match authMiddleware apiKey req.authHeader with
        | .respond s m => .authError s m
        | .next => .mcp
      | _, _ => .notFound

/-- **C7.** The claim says every `/api/*` route except `/api/health`
is reachable only with a matching bearer token (401/403 on mismatch,
500 on unset secret).  The code registers `app.route('/api', apiRoutes)`
before `app.use('/api/*', authMiddleware)`, so the middleware never
runs for any matched API route: `GET /api/weeks` (and every other API
route) is served with **no** `Authorization` header even though the
server secret is set, while the same credentials are correctly
rejected on `POST /mcp`, whose `authMiddleware` is attached inline.
The code contradicts its own comment (`// HTTP API routes (with
auth)`) and the README (`API key authentication required for all
endpoints (except /api/health)`): a code bug. -/
theorem apiRoutes_bypass_authMiddleware :
    appDispatch (some "s3cret")
        { method := .get, path := ["api", "weeks"], authHeader := none } =
      .handled "weeks-list" ∧
    appDispatch (some "s3cret")
        { method := .post, path := ["api", "weight"],
          authHeader := some "Bearer wrong-key" } =
      .handled "weight-create" ∧
    appDispatch (some "s3cret")
        { method := .post, path := ["mcp"], authHeader := none } =
      .authError 401 "Missing Authorization header" ∧
    appDispatch (some "s3cret")
        { method := .post, path := ["mcp"],
          authHeader := some "Bearer wrong-key" } =
      .authError 403 "Invalid API key" := by
  refine ⟨rfl, rfl, rfl, rfl⟩

/-! ## MCP tool-invocation surface (`src/mcp-server/src/tools/*.ts`,
`POST /mcp` dispatch in `index.ts`)

Every tool returns `{ content: [{ type: 'text', text }] }` — a single
prose text block — modelled as `ToolResult`.  Number display
formatting (`toFixed`, `toLocaleString`) is abstracted by `ratStr`. -/

/-- A tool's successful result: the single text block of
`content: [{ type: 'text', text }]`. -/
structure ToolResult where
  text : String
deriving Repr, DecidableEq

/-- The database accessors used by the tools (`queries.ts`), abstracted
as pure lookups. -/
structure Db where
  currentWeek : Option WeekRow
  weekByStartDate : Int → Option WeekRow
  /-- `getWeeks db limit offset` over the `completed_weeks` view. -/
  completedWeeks : Nat → Nat → List WeekRow
  /-- `getWeightReadings db start end`, date-ascending. -/
  weightReadings : Int → Int → List WeightReading

/-- Rendering of a JavaScript number, non-finite values included. -/
def jsNumStr : JsNum → String
  | .finite q => ratStr q
  | .infinite => "Infinity"

/-- `${x >= 0 ? '+' : ''}` sign prefix used by several templates. -/
def signPrefix (q : Rat) : String := if 0 ≤ q then "+" else ""

/-- The `(…%)` adherence suffix of a week-summary ACTUALS line. -/
def pctSuffix (p : Option JsNum) : String :=
  match p with
  | none => ""
  | some n => "(" ++ jsNumStr n ++ "%)"

/-- The report body of `executeWeekSummary` for an existing week. -/
def weekSummaryText (startDate : Int) (w : WeekRow) : String :=
  "Week Summary: " ++ toString startDate ++ "\n" ++
  "Phase: " ++ w.phase ++ "\n\n" ++
  "TARGETS:\n" ++
  "- Calories: " ++ ratStr w.target_calories ++ " kcal\n" ++
  "- Protein: " ++ ratStr w.target_protein ++ "g\n" ++
  "- Steps: " ++ ratStr w.target_steps ++ "\n" ++
  "- Cardio: " ++ ratStr w.target_cardio ++ " kcal\n\n" ++
  "ACTUALS:\n" ++
  "- Calories: " ++ actualCell w.total_calories ++ " kcal " ++
    pctSuffix (adherencePct w.total_calories w.target_calories) ++ "\n" ++
  "- Protein: " ++ actualCell w.total_protein ++ "g " ++
    pctSuffix (adherencePct w.total_protein w.target_protein) ++ "\n" ++
  "- Steps: " ++ stepsActualCell w.total_steps ++ " " ++
    pctSuffix (adherencePct w.total_steps w.target_steps) ++ "\n" ++
  "- Cardio: " ++ actualCell w.total_cardio_calories ++ " kcal " ++
    pctSuffix (adherencePct w.total_cardio_calories w.target_cardio) ++ "\n\n" ++
  "BODY COMPOSITION:\n" ++
  "- Average Weight: " ++
    (if jsTruthy w.average_weight then ratStr (w.average_weight.getD 0) ++ " lbs"
     else "N/A") ++ "\n" ++
  "- Week-over-Week Change: " ++
    (if jsTruthy w.week_over_week_weight_change then
       signPrefix (w.week_over_week_weight_change.getD 0) ++
         ratStr (w.week_over_week_weight_change.getD 0) ++ " lbs"
     else "N/A") ++ "\n" ++
  "- Body Fat: " ++
    (if jsTruthy w.body_fat_percentage then
       ratStr (w.body_fat_percentage.getD 0) ++ "%" else "N/A") ++
    (if jsTruthy w.body_fat_change then
       " (" ++ signPrefix (w.body_fat_change.getD 0) ++
         ratStr (w.body_fat_change.getD 0) ++ "%)" else "") ++ "\n" ++
  "- Muscle Mass: " ++
    (if jsTruthy w.muscle_mass_percentage then
       ratStr (w.muscle_mass_percentage.getD 0) ++ "%" else "N/A") ++
    (if jsTruthy w.muscle_mass_change then
       " (" ++ signPrefix (w.muscle_mass_change.getD 0) ++
         ratStr (w.muscle_mass_change.getD 0) ++ "%)" else "") ++ "\n\n" ++
  "Status: " ++
    (if w.is_complete ≠ 0 then "Completed on " ++ (w.completed_at.getD "null")
     else "In Progress")

/-- `executeWeekSummary` in `week-summary.ts`. -/
def executeWeekSummary (week : Option WeekRow) (startDate : Int) : ToolResult :=
  match week with
  | none => { text := "No week found starting on " ++ toString startDate }
  | some w => { text := weekSummaryText startDate w }

/-- One PROGRESS line of `executeCurrentWeek`
(`${actual || '0'} / ${target} (${actual ? pct : '0'}%)`). -/
def progressLine (label : String) (actual : Option Rat) (target : Rat)
    (unit : String) : String :=
  label ++ ": " ++
    (if jsTruthy actual then ratStr (actual.getD 0) else "0") ++ " / " ++
    ratStr target ++ unit ++ " (" ++
    (if jsTruthy actual then jsNumStr ((jsDiv (actual.getD 0) target).mul100)
     else "0") ++ "%)\n"

/-- The CURRENT METRICS block of `executeCurrentWeek`, shown when
`week.average_weight` is truthy. -/
def currentMetricsBlock (w : WeekRow) : String :=
  if jsTruthy w.average_weight then
    "CURRENT METRICS:\n" ++
    "7-day avg weight: " ++ ratStr (w.average_weight.getD 0) ++ " lbs\n" ++
    (if jsTruthy w.week_over_week_weight_change then
       "Week-over-week: " ++ signPrefix (w.week_over_week_weight_change.getD 0) ++
         ratStr (w.week_over_week_weight_change.getD 0) ++ " lbs\n" else "") ++
    (if jsTruthy w.body_fat_percentage then
       "Body fat: " ++ ratStr (w.body_fat_percentage.getD 0) ++ "%" ++
         (if jsTruthy w.body_fat_change then
            " (" ++ signPrefix (w.body_fat_change.getD 0) ++
              ratStr (w.body_fat_change.getD 0) ++ "%)" else "") ++ "\n" else "") ++
    (if jsTruthy w.muscle_mass_percentage then
       "Muscle mass: " ++ ratStr (w.muscle_mass_percentage.getD 0) ++ "%" ++
         (if jsTruthy w.muscle_mass_change then
            " (" ++ signPrefix (w.muscle_mass_change.getD 0) ++
              ratStr (w.muscle_mass_change.getD 0) ++ "%)" else "") ++ "\n" else "")
  else ""

/-- `executeCurrentWeek` in `current-week.ts`.  `daysIntoWeek` is the
wall-clock-derived day index (`Date.now()`), passed as a parameter. -/
def executeCurrentWeek (week : Option WeekRow) (daysIntoWeek : Int) : ToolResult :=
  match week with
  | none =>
      { text := "No current week in progress. Start a new week to track metrics." }
  | some w =>
      { text :=
          "Current Week (Day " ++ toString daysIntoWeek ++ " of 7)\n" ++
          toString w.start_date ++ " - " ++ toString w.end_date ++ "\n" ++
          "Phase: " ++ w.phase ++ "\n\n" ++
          "PROGRESS:\n" ++
          progressLine "Steps" w.total_steps w.target_steps "" ++
          progressLine "Calories" w.total_calories w.target_calories "" ++
          progressLine "Protein" w.total_protein w.target_protein "g" ++
          progressLine "Cardio" w.total_cardio_calories w.target_cardio " kcal" ++
          "\n" ++ currentMetricsBlock w }

/-- JavaScript `x.limit || 10` on optional numeric arguments (`0` falls
back to the default, as under `||`). -/
def jsOrNat (x : Option Nat) (d : Nat) : Nat :=
  match x with
  | none => d
  | some v => if v = 0 then d else v

/-- One week block of `executeWeeklyHistory` (index is 0-based here,
displayed as `offset + index + 1`). -/
def historyWeekBlock (offset : Nat) (index : Nat) (w : WeekRow) : String :=
  "WEEK " ++ toString (offset + index + 1) ++ ": " ++ toString w.start_date ++
    " (" ++ w.phase ++ ")\n" ++
  "Targets: " ++ ratStr w.target_calories ++ " kcal | " ++
    ratStr w.target_protein ++ "g protein | " ++ ratStr w.target_steps ++
    " steps\n" ++
  "Actuals: " ++ actualCell w.total_calories ++ " kcal | " ++
    actualCell w.total_protein ++ "g protein | " ++
    stepsActualCell w.total_steps ++ " steps\n" ++
  "Weight: " ++
    (match w.average_weight with
     | some q => ratStr q
     | none => "N/A") ++ " lbs" ++
  (if jsTruthy w.week_over_week_weight_change then
     " (" ++ signPrefix (w.week_over_week_weight_change.getD 0) ++
       ratStr (w.week_over_week_weight_change.getD 0) ++ " lbs)" else "") ++ "\n" ++
  (if jsTruthy w.total_calories ∧ jsTruthy w.total_protein ∧ jsTruthy w.total_steps
   then
     let calAdherence := (jsDiv (w.total_calories.getD 0) w.target_calories).mul100
     let proteinAdherence := (jsDiv (w.total_protein.getD 0) w.target_protein).mul100
     let stepsAdherence := (jsDiv (w.total_steps.getD 0) w.target_steps).mul100
     "Adherence: " ++
       jsNumStr (((calAdherence.add proteinAdherence).add stepsAdherence).divNat 3) ++
       "%\n"
   else "") ++ "\n"

/-- `executeWeeklyHistory` in `weekly-history.ts` (the fetched week
list is a parameter; `limit`/`offset` defaulting happens before the
fetch). -/
def executeWeeklyHistory (weeks : List WeekRow) (offset : Nat) : ToolResult :=
  match weeks with
  | [] => { text := "No completed weeks found" }
  | _ =>
      { text :=
          "Weekly History (showing " ++ toString weeks.length ++ " weeks)\n\n" ++
          String.join (weeks.enum.map fun p => historyWeekBlock offset p.1 p.2) }

/-- Minimum of a non-empty list (`Math.min(...weights)`; the empty case
is unreachable behind the guards). -/
def listMin (l : List Rat) : Rat :=
  match l with
  | [] => 0
  | x :: xs => xs.foldl min x

/-- Maximum of a non-empty list (`Math.max(...weights)`). -/
def listMax (l : List Rat) : Rat :=
  match l with
  | [] => 0
  | x :: xs => xs.foldl max x

/-- One READINGS line of `executeWeightTrend`. -/
def weightReadingLine (r : WeightReading) : String :=
  toString r.date ++ ": " ++ ratStr r.weight ++ " lbs" ++
  (if jsTruthy r.body_fat_percentage then
     " | BF: " ++ ratStr (r.body_fat_percentage.getD 0) ++ "%" else "") ++
  (if jsTruthy r.muscle_mass_percentage then
     " | MM: " ++ ratStr (r.muscle_mass_percentage.getD 0) ++ "%" else "") ++ "\n"

/-- `executeWeightTrend` in `weight-trend.ts`. -/
def executeWeightTrend (readings : List WeightReading)
    (startDate endDate : Int) : ToolResult :=
  match readings with
  | [] =>
      { text := "No weight readings found between " ++ toString startDate ++
          " and " ++ toString endDate }
  | _ =>
      let weights := readings.map (·.weight)
      let avgWeight := weights.foldl (· + ·) 0 / (weights.length : Rat)
      let totalChange := weights.getLastD 0 - weights.headD 0
      { text :=
          "Weight Trend Analysis (" ++ toString startDate ++ " to " ++
            toString endDate ++ ")\n\n" ++
          "SUMMARY:\n" ++
          "- Total readings: " ++ toString readings.length ++ "\n" ++
          "- Average weight: " ++ ratStr avgWeight ++ " lbs\n" ++
          "- Min weight: " ++ ratStr (listMin weights) ++ " lbs\n" ++
          "- Max weight: " ++ ratStr (listMax weights) ++ " lbs\n" ++
          "- Total change: " ++ signPrefix totalChange ++ ratStr totalChange ++
            " lbs\n\n" ++
          "READINGS:\n" ++ String.join (readings.map weightReadingLine) }

/-- Lower-case name of a phase (`suggestion.suggestedPhase`). -/
def Phase.name : Phase → String
  | .cut => "cut"
  | .maintenance => "maintenance"
  | .bulk => "bulk"

/-- One phase block of `executePhaseAnalysis`. -/
def phaseBlock (phase : String) (phaseWeeks : List WeekRow) : String :=
  let base := phase.toUpper ++ " PHASE (" ++ toString phaseWeeks.length ++
    " weeks)\n" ++ "========================================\n"
  let validWeeks := phaseWeeks.filter fun w =>
    w.average_weight.isSome && w.week_over_week_weight_change.isSome
  match validWeeks with
  | [] => base ++ "Insufficient data for analysis\n" ++ "\n"
  | firstWeek :: rest =>
      let lastWeek := rest.getLastD firstWeek
      let avgWeightChange :=
        (validWeeks.foldl (fun s w => s + w.week_over_week_weight_change.getD 0) 0) /
          (validWeeks.length : Rat)
      let totalWeightChange :=
        lastWeek.average_weight.getD 0 - firstWeek.average_weight.getD 0
      base ++
      "Average weekly weight change: " ++ signPrefix avgWeightChange ++
        ratStr avgWeightChange ++ " lbs\n" ++
      "Total weight change: " ++ signPrefix totalWeightChange ++
        ratStr totalWeightChange ++ " lbs\n" ++
      (if jsTruthy firstWeek.body_fat_percentage ∧
          jsTruthy lastWeek.body_fat_percentage then
         let bfChange := lastWeek.body_fat_percentage.getD 0 -
           firstWeek.body_fat_percentage.getD 0
         "Body fat change: " ++ signPrefix bfChange ++ ratStr bfChange ++ "%\n"
       else "") ++
      (if jsTruthy firstWeek.muscle_mass_percentage ∧
          jsTruthy lastWeek.muscle_mass_percentage then
         let mmChange := lastWeek.muscle_mass_percentage.getD 0 -
           firstWeek.muscle_mass_percentage.getD 0
         "Muscle mass change: " ++ signPrefix mmChange ++ ratStr mmChange ++ "%\n"
       else "") ++
      (if (weeksWithData phaseWeeks).length > 0 then
         "Average calorie adherence: " ++ jsNumStr (avgCalAdherence phaseWeeks) ++
           "%\n" ++
         "Average protein adherence: " ++
           jsNumStr (avgProteinAdherence phaseWeeks) ++ "%\n"
       else "") ++
      "\nEffectiveness: " ++
      (if phase = "cut" ∧ avgWeightChange < -(1/2) then
         "✓ Effective cut (losing weight)\n"
       else if phase = "bulk" ∧ avgWeightChange > 1/2 then
         "✓ Effective bulk (gaining weight)\n"
       else if phase = "maintenance" ∧ |avgWeightChange| < 1/2 then
         "✓ Effective maintenance (stable weight)\n"
       else "⚠ Phase goals not met\n") ++ "\n"

/-- The trailing RECOMMENDATION block of `executePhaseAnalysis`
(note the hard-coded placeholder surplus of `200`). -/
def recommendationBlock (weeks : List WeekRow) : String :=
  let recentWeeks := weeks.drop (weeks.length - 4)
  if recentWeeks.length ≥ 2 then
    let validRecent := recentWeeks.filter fun w =>
      w.average_weight.isSome && w.week_over_week_weight_change.isSome
    if validRecent.length ≥ 2 then
      let avgWeeklyChange :=
        (validRecent.foldl (fun s w => s + w.week_over_week_weight_change.getD 0) 0) /
          (validRecent.length : Rat)
      let suggestion := suggestPhase 200 avgWeeklyChange
      "RECOMMENDATION:\n" ++
      "Based on recent trends, suggested phase: " ++
        suggestion.suggestedPhase.name.toUpper ++ "\n" ++
      "Reasoning: " ++ suggestion.reasoning ++ "\n" ++
      "Confidence: " ++ ratStr (suggestion.confidence * 100) ++ "%\n"
    else ""
  else ""

/-- `executePhaseAnalysis` in `phase-analysis.ts`: fetch up to 100
completed weeks, filter to the date range, and either explain the
empty result or emit the per-phase blocks (grouped by first-seen phase
order) plus the recommendation. -/
def executePhaseAnalysis (allWeeks : List WeekRow)
    (startDate endDate : Int) : ToolResult :=
  let weeks := allWeeks.filter fun w =>
    decide (startDate ≤ w.start_date) && decide (w.start_date ≤ endDate)
  match weeks with
  | [] =>
      { text := "No weeks found between " ++ toString startDate ++ " and " ++
          toString endDate }
  | _ =>
      let phases := weeks.foldl
        (fun acc w => if acc.contains w.phase then acc else acc ++ [w.phase]) []
      { text :=
          "Phase Analysis (" ++ toString startDate ++ " to " ++
            toString endDate ++ ")\n\n" ++
          "Total weeks analyzed: " ++ toString weeks.length ++ "\n\n" ++
          String.join (phases.map fun p =>
            phaseBlock p (weeks.filter fun w => w.phase == p)) ++
          recommendationBlock weeks }

/-- `executeBodyComposition` in `body-composition.ts`. -/
def executeBodyComposition (readings : List WeightReading)
    (startDate endDate : Int) : ToolResult :=
  let compReadings := readings.filter fun r =>
    r.body_fat_percentage.isSome || r.muscle_mass_percentage.isSome
  match compReadings with
  | [] =>
      { text := "No body composition data found between " ++
          toString startDate ++ " and " ++ toString endDate }
  | _ =>
      let bfReadings := compReadings.filter (·.body_fat_percentage.isSome)
      let mmReadings := compReadings.filter (·.muscle_mass_percentage.isSome)
      let bodyFats := bfReadings.map (·.body_fat_percentage.getD 0)
      let muscleMasses := mmReadings.map (·.muscle_mass_percentage.getD 0)
      { text :=
          "Body Composition Trend (" ++ toString startDate ++ " to " ++
            toString endDate ++ ")\n\n" ++
          (if bfReadings.length > 0 then
             let avgBF := bodyFats.foldl (· + ·) 0 / (bodyFats.length : Rat)
             let bfChange := bodyFats.getLastD 0 - bodyFats.headD 0
             "BODY FAT PERCENTAGE:\n" ++
             "- Readings: " ++ toString bfReadings.length ++ "\n" ++
             "- Average: " ++ ratStr avgBF ++ "%\n" ++
             "- Range: " ++ ratStr (listMin bodyFats) ++ "% - " ++
               ratStr (listMax bodyFats) ++ "%\n" ++
             "- Change: " ++ signPrefix bfChange ++ ratStr bfChange ++ "%\n\n"
           else "") ++
          (if mmReadings.length > 0 then
             let avgMM := muscleMasses.foldl (· + ·) 0 / (muscleMasses.length : Rat)
             let mmChange := muscleMasses.getLastD 0 - muscleMasses.headD 0
             "MUSCLE MASS PERCENTAGE:\n" ++
             "- Readings: " ++ toString mmReadings.length ++ "\n" ++
             "- Average: " ++ ratStr avgMM ++ "%\n" ++
             "- Range: " ++ ratStr (listMin muscleMasses) ++ "% - " ++
               ratStr (listMax muscleMasses) ++ "%\n" ++
             "- Change: " ++ signPrefix mmChange ++ ratStr mmChange ++ "%\n\n"
           else "") ++
          "DETAILED READINGS:\n" ++
          String.join (compReadings.map fun r =>
            toString r.date ++ ": " ++
            (if jsTruthy r.body_fat_percentage then
               "BF " ++ ratStr (r.body_fat_percentage.getD 0) ++ "%" else "") ++
            (if jsTruthy r.muscle_mass_percentage then
               (if jsTruthy r.body_fat_percentage then " | " else "") ++
               "MM " ++ ratStr (r.muscle_mass_percentage.getD 0) ++ "%"
             else "") ++ "\n") }

/-- A `tools/call` request body (`params.name` and `params.arguments`)
after argument extraction. -/
inductive ToolCall where
  | weekSummary (startDate : Int)
  | weightTrend (startDate endDate : Int)
  | weeklyHistory (limit offset : Option Nat)
  | phaseAnalysis (startDate endDate : Int)
  | bodyComposition (startDate endDate : Int)
  | currentWeek
  | unknown (name : String)
deriving Repr, DecidableEq

/-- The `/mcp` endpoint's answer to a `tools/call`. -/
inductive McpResponse where
  /-- `c.json(result)` — a 200 response with the tool's text block. -/
  | success (result : ToolResult)
  /-- `c.json({error: ...}, 400)` for an unknown tool. -/
  | clientError (code : Nat) (msg : String)
deriving Repr, DecidableEq

/-- The `tools/call` dispatch of `index.ts` (the `switch (toolName)`).
The modelled tools are total functions, so the `catch`-500 branch is
unreachable.  `daysIntoWeek` abstracts the `Date.now()` read in
`executeCurrentWeek`. -/
def mcpToolsCall (db : Db) (daysIntoWeek : Int) (call : ToolCall) : McpResponse :=
  match call with
  | .weekSummary sd => .success (executeWeekSummary (db.weekByStartDate sd) sd)
  | .weightTrend sd ed => .success (executeWeightTrend (db.weightReadings sd ed) sd ed)
  | .weeklyHistory lim off =>
      .success (executeWeeklyHistory
        (db.completedWeeks (jsOrNat lim 10) (jsOrNat off 0)) (jsOrNat off 0))
  | .phaseAnalysis sd ed => .success (executePhaseAnalysis (db.completedWeeks 100 0) sd ed)
  | .bodyComposition sd ed =>
      .success (executeBodyComposition (db.weightReadings sd ed) sd ed)
  | .currentWeek => .success (executeCurrentWeek db.currentWeek daysIntoWeek)
  | .unknown n => .clientError 400 ("Unknown tool: " ++ n)

/-- **C8.** For every tool of the tool-invocation surface (current
week, week summary, weekly history, weight trend, phase analysis, body
composition) and every "no data" condition (no matching week, no
readings in range), the tool returns a successful (200-level) response
whose body is a prose text block explaining the empty result, never a
transport-level error. -/
theorem tools_no_data_return_prose (db : Db) (d sd ed : Int)
    (lim off : Option Nat)
    (h1 : db.weekByStartDate sd = none)
    (h2 : db.currentWeek = none)
    (h3 : db.completedWeeks (jsOrNat lim 10) (jsOrNat off 0) = [])
    (h4 : db.weightReadings sd ed = [])
    (h5 : (db.completedWeeks 100 0).filter (fun w =>
        decide (sd ≤ w.start_date) && decide (w.start_date ≤ ed)) = [])
    (h6 : (db.weightReadings sd ed).filter (fun r =>
        r.body_fat_percentage.isSome || r.muscle_mass_percentage.isSome) = []) :
    mcpToolsCall db d (.weekSummary sd) =
      .success { text := "No week found starting on " ++ toString sd } ∧
    mcpToolsCall db d .currentWeek =
      .success { text := "No current week in progress. Start a new week to track metrics." } ∧
    mcpToolsCall db d (.weeklyHistory lim off) =
      .success { text := "No completed weeks found" } ∧
    mcpToolsCall db d (.weightTrend sd ed) =
      .success { text := "No weight readings found between " ++ toString sd ++
          " and " ++ toString ed } ∧
    mcpToolsCall db d (.phaseAnalysis sd ed) =
      .success { text := "No weeks found between " ++ toString sd ++ " and " ++
          toString ed } ∧
    mcpToolsCall db d (.bodyComposition sd ed) =
      .success { text := "No body composition data found between " ++
          toString sd ++ " and " ++ toString ed } := by
  refine ⟨?_, ?_, ?_, ?_, ?_, ?_⟩
  · simp [mcpToolsCall, executeWeekSummary, h1]
  · simp [mcpToolsCall, executeCurrentWeek, h2]
  · simp [mcpToolsCall, executeWeeklyHistory, h3]
  · simp [mcpToolsCall, executeWeightTrend, h4]
  · simp [mcpToolsCall, executePhaseAnalysis, h5]
  · simp [mcpToolsCall, executeBodyComposition, h6]

/-- An empty database. -/
def emptyDb : Db :=
  { currentWeek := none
    weekByStartDate := fun _ => none
    completedWeeks := fun _ _ => []
    weightReadings := fun _ _ => [] }

/-- Witness for `tools_no_data_return_prose` over the empty database. -/
theorem tools_no_data_return_prose_witness :
    mcpToolsCall emptyDb 1 (.weekSummary 5) =
      .success { text := "No week found starting on " ++ toString (5 : Int) } ∧
    mcpToolsCall emptyDb 1 .currentWeek =
      .success { text := "No current week in progress. Start a new week to track metrics." } := by
  have h := tools_no_data_return_prose emptyDb 1 5 9 none none
    rfl rfl rfl rfl rfl rfl
  exact ⟨h.1, h.2.1⟩

end HealthApp
